import Mathlib

/-!
Verification of the `SearchBar` component
(`src/web/src/components/search/SearchBar.tsx`).

The component is embedded shallowly as pure Lean functions that return an
ordered trace of observable effects (callback invocations and imperative
style mutations), mirroring the source statement by statement.

Source being modelled:

```
const handleChange = (event) => {
  const target = event.target;
  setQuery(target.value);
  // Resize the textarea to fit the content
  target.style.height = "24px";
  const newHeight = target.scrollHeight;
  target.style.height = `${newHeight}px`;
};

const handleKeyDown = (event) => {
  if (event.key === "Enter" && !event.shiftKey) {
    onSearch();
    event.preventDefault();
  }
};

<textarea value={query} onChange={handleChange} onKeyDown={handleKeyDown} />
```

DOM model: a textarea carries its current content (`value`) and its current
style height in pixels.  Its `scrollHeight` is the larger of the natural
content height and the current client height, which is why the source resets
the height to the 24 px baseline before reading `scrollHeight`.  The natural
content height of a string is an arbitrary function `measure`, a parameter of
the development.
-/

/-- An observable effect emitted by one of the two event handlers, in program
order: a `setQuery`/`onQueryChange` callback invocation, an `onSearch`/
`onSubmit` callback invocation, an assignment to `target.style.height`, or a
call to `event.preventDefault()`. -/
inductive Effect where
  | queryChange (s : String)
  | submit
  | setHeight (h : Nat)
  | preventDefault
deriving DecidableEq, Repr

/-- The mutable DOM textarea underlying the widget: its current text content
and its current style height in pixels. -/
structure TextArea where
  value : String
  height : Nat
deriving DecidableEq, Repr

/-- DOM `scrollHeight` of a textarea: the natural content height of the text,
but never less than the current client height. -/
def scrollHeight (measure : String → Nat) (t : TextArea) : Nat :=
  max (measure t.value) t.height

/-- Shallow embedding of `handleChange` from `SearchBar.tsx`, statement by
statement: invoke `setQuery(target.value)`, set `target.style.height` to
`"24px"`, read `target.scrollHeight`, set `target.style.height` to that value.
Returns the final textarea state and the ordered effect trace. -/
def handleChange (measure : String → Nat) (t : TextArea) :
    TextArea × List Effect :=
  let tr0 := [Effect.queryChange t.value]
  let t1 : TextArea := { t with height := 24 }
  let tr1 := tr0 ++ [Effect.setHeight 24]
  let newHeight := scrollHeight measure t1
  let t2 : TextArea := { t1 with height := newHeight }
  (t2, tr1 ++ [Effect.setHeight newHeight])

/-- Shallow embedding of `handleKeyDown` from `SearchBar.tsx`.  The handler
closes over the component's props, so the current `query` is in scope, but the
body only inspects `event.key` and `event.shiftKey`. -/
def handleKeyDown (query : String) (key : String) (shiftKey : Bool) :
    List Effect :=
  if key == "Enter" && !shiftKey then
    [Effect.submit, Effect.preventDefault]
  else
    []

/-- Boolean recogniser for `Effect.setHeight` effects. -/
def isSetHeightE : Effect → Bool
  | Effect.setHeight _ => true
  | _ => false

/-- Boolean recogniser for `Effect.queryChange` effects. -/
def isQueryChangeE : Effect → Bool
  | Effect.queryChange _ => true
  | _ => false

/-- The rendered application state: the parent controller's `query` state, the
text currently displayed by the textarea (`value={query}` in the JSX), and the
textarea's current style height. -/
structure AppState where
  parentQuery : String
  displayed : String
  height : Nat
deriving DecidableEq, Repr

/-- A user interaction delivered to the widget: an input mutation that leaves
the textarea holding content `s` (keystroke, paste, delete — React's change
event reports the full new value), or a physical key-down with a key name and
shift-modifier flag. -/
inductive InputEvent where
  | edit (s : String)
  | keyDown (key : String) (shiftKey : Bool)
deriving DecidableEq, Repr

/-- Interpretation of a single effect against the application state: the
`setQuery` callback updates the parent's state, a height assignment updates
the textarea's style height, the remaining effects do not touch this state. -/
def applyEffect (st : AppState) : Effect → AppState
  | Effect.queryChange s => { st with parentQuery := s }
  | Effect.setHeight h => { st with height := h }
  | Effect.submit => st
  | Effect.preventDefault => st

/-- React re-render after a state update: the textarea is a controlled
component (`value={query}`), so its displayed text becomes the parent's
current query. -/
def rerender (st : AppState) : AppState :=
  { st with displayed := st.parentQuery }

/-- One event-loop cycle: dispatch the event to the matching handler of
`SearchBar.tsx`, apply the emitted effects in order, then re-render. -/
def step (measure : String → Nat) (st : AppState) : InputEvent → AppState
  | InputEvent.edit s =>
      let tr := (handleChange measure { value := s, height := st.height }).2
      rerender (tr.foldl applyEffect st)
  | InputEvent.keyDown key shiftKey =>
      let tr := handleKeyDown st.parentQuery key shiftKey
      rerender (tr.foldl applyEffect st)

/-- A sample natural-content-height function used by concrete witnesses:
24 px per line of text. -/
def measureLines (s : String) : Nat :=
  24 * (s.splitOn "\n").length

/-- C1: `Enter` without shift invokes the submit callback exactly once and
calls `preventDefault`, and emits no content mutation, so no newline is
inserted into the content. -/
theorem C1_enter_submits (query key : String) (shiftKey : Bool)
    (hk : key = "Enter") (hs : shiftKey = false) :
    (handleKeyDown query key shiftKey).count Effect.submit = 1 ∧
    Effect.preventDefault ∈ handleKeyDown query key shiftKey ∧
    (handleKeyDown query key shiftKey).countP isQueryChangeE = 0 := by
  subst hk hs
  simp [handleKeyDown]
  decide

/-- Witness for C1 at a concrete event. -/
theorem C1_enter_submits_witness :
    (handleKeyDown "cats" "Enter" false).count Effect.submit = 1 ∧
    Effect.preventDefault ∈ handleKeyDown "cats" "Enter" false ∧
    (handleKeyDown "cats" "Enter" false).countP isQueryChangeE = 0 :=
  C1_enter_submits "cats" "Enter" false rfl rfl

/-- C2: for every input string, `handleChange` invokes the change callback
`setQuery` exactly once, with exactly the full current content of the input,
untransformed. -/
theorem C2_change_callback_identity (measure : String → Nat) (t : TextArea) :
    ((handleChange measure t).2).count (Effect.queryChange t.value) = 1 ∧
    ∀ s, Effect.queryChange s ∈ (handleChange measure t).2 → s = t.value := by
  constructor
  · simp [handleChange, List.count_cons, List.count_append]
  · intro s hs
    simp [handleChange] at hs
    exact hs

/-- C3: `Enter` with shift pressed takes no special action: no submit, no
`preventDefault`, no effect at all, so the default newline insertion
proceeds. -/
theorem C3_shift_enter_no_submit (query key : String) (shiftKey : Bool)
    (hk : key = "Enter") (hs : shiftKey = true) :
    handleKeyDown query key shiftKey = [] := by
  subst hk hs
  simp [handleKeyDown]

/-- Witness for C3 at a concrete event. -/
theorem C3_shift_enter_no_submit_witness :
    handleKeyDown "cats" "Enter" true = [] :=
  C3_shift_enter_no_submit "cats" "Enter" true rfl rfl

/-- C4: on every content change the height assignments are, in this order,
first the reset to the fixed 24 px baseline and then the measured content
height, and nothing else. -/
theorem C4_reset_then_measure (measure : String → Nat) (t : TextArea) :
    ((handleChange measure t).2).filter isSetHeightE =
      [Effect.setHeight 24,
       Effect.setHeight (max (measure t.value) 24)] := by
  simp [handleChange, scrollHeight, isSetHeightE]

/-- C5: shrink correctness — the height after a content change is independent
of the previous surface height, so it equals the height computed from scratch
(from the 24 px baseline) for the new string alone, with no residual
contribution from previous, taller content. -/
theorem C5_shrink_correct (measure : String → Nat) (s : String)
    (hprev : Nat) :
    (handleChange measure { value := s, height := hprev }).1.height =
      (handleChange measure { value := s, height := 24 }).1.height := by
  simp [handleChange, scrollHeight]

/-- C6 counterexample: on a shrink from three lines (72 px surface) to the
single-line content `"a"`, the first effect of `handleChange` is the change
callback and the height assignments come after it, so it is false that the
height resize step precedes the invocation of the change callback. -/
theorem C6_resize_before_callback_false :
    ¬ ((handleChange (fun _ => 24) { value := "a", height := 72 }).2.findIdx
          isSetHeightE <
        (handleChange (fun _ => 24) { value := "a", height := 72 }).2.findIdx
          isQueryChangeE) := by
  decide

/-- C6 amended: on each input event `handleChange` first notifies the parent
of the new text (invokes the change callback), and only then performs the
height reset and re-measurement: the trace is exactly the callback invocation
followed by the two height assignments. -/
theorem C6_callback_then_resize (measure : String → Nat) (t : TextArea) :
    (handleChange measure t).2 =
      [Effect.queryChange t.value, Effect.setHeight 24,
       Effect.setHeight (max (measure t.value) 24)] := by
  simp [handleChange, scrollHeight]

/-- C7: controlled-component invariant — after every event-loop cycle the
displayed text equals the parent's query; key-down handling never changes the
parent's text, and an edit changes it only to the exact string passed to the
change callback. -/
theorem C7_controlled_component (measure : String → Nat) (st : AppState) :
    (∀ ev, (step measure st ev).displayed = (step measure st ev).parentQuery)
    ∧ (∀ key shiftKey,
        (step measure st (InputEvent.keyDown key shiftKey)).parentQuery =
          st.parentQuery)
    ∧ (∀ s, (step measure st (InputEvent.edit s)).parentQuery = s) := by
  refine ⟨fun ev => ?_, fun key shiftKey => ?_, fun s => ?_⟩
  · cases ev <;> simp [step, rerender]
  · simp only [step, handleKeyDown]
    by_cases h : (key == "Enter" && !shiftKey) = true <;>
      simp [h, rerender, applyEffect]
  · simp [step, handleChange, rerender, applyEffect]

/-- C8: a key-down whose key is not `Enter` emits no effect at all — no
submit, no `preventDefault`, no height mutation — and the event-loop cycle
for it leaves the surface height unchanged. -/
theorem C8_other_keys_frame (measure : String → Nat) (st : AppState)
    (key : String) (shiftKey : Bool) (hk : key ≠ "Enter") :
    handleKeyDown st.parentQuery key shiftKey = [] ∧
    (step measure st (InputEvent.keyDown key shiftKey)).height = st.height := by
  have hb : (key == "Enter") = false := beq_eq_false_iff_ne.mpr hk
  constructor
  · simp [handleKeyDown, hb]
  · simp [step, handleKeyDown, hb, rerender]

/-- A concrete application state used by witnesses. -/
def stExample : AppState :=
  { parentQuery := "cats", displayed := "cats", height := 24 }

/-- Witness for C8 at a concrete key. -/
theorem C8_other_keys_frame_witness :
    handleKeyDown "cats" "a" false = [] ∧
    (step (fun _ => 24) stExample (InputEvent.keyDown "a" false)).height
      = 24 :=
  C8_other_keys_frame (fun _ => 24) stExample "a" false (by decide)

/-- C9: deterministic re-measurement — `handleChange` preserves the content,
and running it a second time on its own result (the same content supplied
twice in succession) computes the same surface height as the first run. -/
theorem C9_idempotent_measure (measure : String → Nat) (t : TextArea) :
    (handleChange measure t).1.value = t.value ∧
    (handleChange measure (handleChange measure t).1).1.height =
      (handleChange measure t).1.height := by
  constructor
  · simp [handleChange]
  · simp [handleChange, scrollHeight]

/-- C10: the submit decision depends only on the key and the shift flag and
not on the current query text; in particular `Enter` without shift submits
exactly once even when the query is empty. -/
theorem C10_submit_independent_of_query (q1 q2 key : String)
    (shiftKey : Bool) :
    handleKeyDown q1 key shiftKey = handleKeyDown q2 key shiftKey ∧
    (handleKeyDown "" "Enter" false).count Effect.submit = 1 := by
  constructor
  · simp [handleKeyDown]
  · decide
